import Mathlib

/-
Verification of the shogun class registry and factory
(src/src/shogun/base/class_list.h).

The header under src/ declares `create`, `find_correct_name` and
`available_objects` and defines the template `create_object<T>`.
The template body is embedded from the source; the three declared
functions have their implementations outside src/ (the generated
class_list.cpp), so they are modelled from the specification, as are
the auxiliary types they mention (EPrimitiveType from DataType.h,
SGObject and name_lookup from SGObject.h, shared pointers and
dynamic_pointer_cast from the C++ standard library).

Effects are made explicit: a thrown exception is an `Except.error`
value, a null shared pointer is `none`, and heap allocation is
explicit state passing of a fresh-instance counter, so that two
constructed objects are distinct values exactly when they are
distinct allocations.
-/

namespace Shogun

/-- Modelled from the spec: the primitive type tag enumeration
(EPrimitiveType, declared in DataType.h which is not under src/):
not-generic, bool, 8/16/32/64-bit signed and unsigned integers,
32/64-bit floating point, complex. -/
inductive EPrimitiveType where
  | PT_NOT_GENERIC
  | PT_BOOL
  | PT_INT8
  | PT_UINT8
  | PT_INT16
  | PT_UINT16
  | PT_INT32
  | PT_UINT32
  | PT_INT64
  | PT_UINT64
  | PT_FLOAT32
  | PT_FLOAT64
  | PT_COMPLEX128
deriving DecidableEq

/-- Modelled from the spec: a ConstructorEntry of the Registry Table.
It records the concrete class it instantiates, and whether invoking it
fails (the spec distinguishes a ConstructionFailed condition for
constructors that cannot produce a valid instance). -/
structure CtorEntry where
  concreteType : String
  ctorFails : Bool
deriving DecidableEq

/-- Modelled from the spec: the Registry Table, a mapping from
ClassIdentifier (class name, primitive type tag) to ConstructorEntry.
The concrete table (generated class_list.cpp) is not under src/, so it
is a parameter of every operation. -/
abbrev Registry := List ((String × EPrimitiveType) × CtorEntry)

/-- Modelled from the spec: a constructed polymorphic instance
(SGObject is declared but not defined under src/). It carries its
concrete dynamic type and the identity of its allocation. -/
structure SGObject where
  concreteType : String
  instanceId : Nat
deriving DecidableEq

/-- An exception value: `shogunError msg` is what the `error(...)`
calls in class_list.h throw (a ShogunException carrying the formatted
message), and `constructionFailed` is an exception escaping a
registered constructor, which the factory does not catch. -/
inductive SGError where
  | shogunError (msg : String)
  | constructionFailed (name : String)
deriving DecidableEq

/-- Modelled from the spec: lookup of a ClassIdentifier in the
Registry Table; returns no match rather than failing when absent. -/
def lookupReg : Registry → String → EPrimitiveType → Option CtorEntry
  | [], _, _ => none
  | (k, e) :: rest, name, pt =>
    if k.1 = name ∧ k.2 = pt then some e else lookupReg rest name pt

/-- Modelled from the spec: the Factory Entry Point
`create(sgserializable_name, generic)` declared at class_list.h:29,
implemented in the generated class_list.cpp which is not under src/.
On a miss it returns an empty handle (`none`) without throwing; on a
hit it invokes the ConstructorEntry, which either raises a
construction failure or allocates a fresh instance of the registered
concrete class. -/
def create (reg : Registry) (name : String) (generic : EPrimitiveType)
    (fresh : Nat) : Except SGError (Option SGObject) × Nat :=
  match lookupReg reg name generic with
  | none => (Except.ok none, fresh)
  | some e =>
    if e.ctorFails then (Except.error (SGError.constructionFailed name), fresh)
    else (Except.ok (some ⟨e.concreteType, fresh⟩), fresh + 1)

/-- Modelled from the spec: `available_objects()` declared at
class_list.h:65, implemented outside src/; returns the de-duplicated
set of registered class names, type tags collapsed. -/
def available_objects (reg : Registry) : List String :=
  (reg.map (fun e => e.1.1)).dedup

/-- Levenshtein edit distance between two strings, with unit cost for
insert, delete and substitute. -/
def levDist (a b : String) : Nat :=
  levenshtein Levenshtein.defaultCost a.data b.data

/-- Fold selecting, among `best` and the candidates in the list, a
name of minimum `levDist` to `query` (the earliest minimum wins). -/
def closestTo (query best : String) : List String → String
  | [] => best
  | c :: cs =>
    if levDist query c < levDist query best then closestTo query c cs
    else closestTo query best cs

/-- Modelled from the spec: the Name Matcher `find_correct_name`
declared at class_list.h:34, implemented outside src/. It computes the
Levenshtein distance from the query to every registered name and
returns one of minimum distance; on an empty candidate set it returns
the empty-string sentinel and never fails. -/
def find_correct_name (reg : Registry) (name : String) : String :=
  match available_objects reg with
  | [] => ""
  | c :: cs => closestTo name c cs

/-- Modelled from the spec: what the embedding keeps of the template
parameter T of `create_object<T>`: its printable label (the value of
`name_lookup<T>()`, defined outside src/) and the predicate deciding
which concrete classes are T or subtypes of T (the classes for which
the dynamic cast succeeds). -/
structure TypeInfo where
  label : String
  sub : String → Bool

/-- Modelled from the spec: `name_lookup<T>()` (defined outside src/)
yields the demangled label of the expected static type T. -/
def name_lookup (T : TypeInfo) : String := T.label

/-- Modelled from the spec: `std::dynamic_pointer_cast<T>` succeeds
exactly when the concrete dynamic type of the object is T or a subtype
of T, and then returns the same shared object; otherwise it yields a
null pointer (`none`). -/
def dynamic_pointer_cast (T : TypeInfo) (obj : SGObject) : Option SGObject :=
  if T.sub obj.concreteType then some obj else none

/-- The message built by the not-found `error` call at
class_list.h:51-52 from the format string
`{} {} does not exist. Did you mean {} ?` (braces elided here), with
the expected-type label, the requested name and the suggestion
substituted in order. -/
def formatNotFound (tlabel name correct : String) : String :=
  tlabel ++ " " ++ name ++ " does not exist. Did you mean " ++ correct ++ " ?"

/-- Embedding of the template `create_object<T>` at class_list.h:42-60:
call `create(name, pt)`; if the result is empty, compute
`find_correct_name(name)` and throw the formatted not-found error;
otherwise attempt `dynamic_pointer_cast<T>` and throw
`could not cst` when the cast yields null; otherwise return the cast
pointer. An exception escaping `create` propagates. -/
def create_object (T : TypeInfo) (reg : Registry) (name : String)
    (pt : EPrimitiveType) (fresh : Nat) : Except SGError SGObject × Nat :=
  match create reg name pt fresh with
  | (Except.error e, fresh2) => (Except.error e, fresh2)
  | (Except.ok none, fresh2) =>
    (Except.error (SGError.shogunError
      (formatNotFound (name_lookup T) name (find_correct_name reg name))), fresh2)
  | (Except.ok (some obj), fresh2) =>
    match dynamic_pointer_cast T obj with
    | none => (Except.error (SGError.shogunError "could not cst"), fresh2)
    | some cast => (Except.ok cast, fresh2)

/-- Chars of `pat` are an initial segment of `s`. -/
def isPrefixChars : List Char → List Char → Bool
  | [], _ => true
  | _ :: _, [] => false
  | p :: ps, s :: ss => if p = s then isPrefixChars ps ss else false

/-- Chars of `pat` occur contiguously somewhere in `s`. -/
def occursIn (pat : List Char) : List Char → Bool
  | [] => isPrefixChars pat []
  | s :: ss => if isPrefixChars pat (s :: ss) then true else occursIn pat ss

/-- A message contains the suggestion clause of the not-found error. -/
def mentionsSuggestion (msg : String) : Bool :=
  occursIn "Did you mean".data msg.data

/-- A two-entry example registry used to exercise the theorems. -/
def regRR : Registry :=
  [(("RidgeRegression", EPrimitiveType.PT_FLOAT64), ⟨"RidgeRegression", false⟩),
   (("LeastSquares", EPrimitiveType.PT_FLOAT64), ⟨"LeastSquares", false⟩)]

/-- A one-entry example registry whose constructor fails. -/
def regBroken : Registry :=
  [(("Broken", EPrimitiveType.PT_NOT_GENERIC), ⟨"Broken", true⟩)]

/-- Expected type accepting every concrete class. -/
def machineAny : TypeInfo := ⟨"Machine", fun _ => true⟩

/-- Expected type accepting no concrete class. -/
def machineNone : TypeInfo := ⟨"Machine", fun _ => false⟩

theorem create_miss_eq (reg : Registry) (name : String) (pt : EPrimitiveType)
    (fresh : Nat) (h : lookupReg reg name pt = none) :
    create reg name pt fresh = (Except.ok none, fresh) := by
  simp [create, h]

theorem create_hit_eq (reg : Registry) (name : String) (pt : EPrimitiveType)
    (fresh : Nat) (e : CtorEntry) (h : lookupReg reg name pt = some e)
    (hf : e.ctorFails = false) :
    create reg name pt fresh =
      (Except.ok (some ⟨e.concreteType, fresh⟩), fresh + 1) := by
  simp [create, h, hf]

theorem create_fail_eq (reg : Registry) (name : String) (pt : EPrimitiveType)
    (fresh : Nat) (e : CtorEntry) (h : lookupReg reg name pt = some e)
    (hf : e.ctorFails = true) :
    create reg name pt fresh =
      (Except.error (SGError.constructionFailed name), fresh) := by
  simp [create, h, hf]

theorem create_object_of_miss (T : TypeInfo) (reg : Registry) (name : String)
    (pt : EPrimitiveType) (fresh : Nat) (h : lookupReg reg name pt = none) :
    create_object T reg name pt fresh =
      (Except.error (SGError.shogunError
        (formatNotFound (name_lookup T) name (find_correct_name reg name))),
       fresh) := by
  rw [create_object, create_miss_eq reg name pt fresh h]

theorem create_object_of_ctor_fail (T : TypeInfo) (reg : Registry)
    (name : String) (pt : EPrimitiveType) (fresh : Nat) (e : CtorEntry)
    (h : lookupReg reg name pt = some e) (hf : e.ctorFails = true) :
    create_object T reg name pt fresh =
      (Except.error (SGError.constructionFailed name), fresh) := by
  rw [create_object, create_fail_eq reg name pt fresh e h hf]

theorem create_object_of_mismatch (T : TypeInfo) (reg : Registry)
    (name : String) (pt : EPrimitiveType) (fresh : Nat) (e : CtorEntry)
    (h : lookupReg reg name pt = some e) (hf : e.ctorFails = false)
    (hc : T.sub e.concreteType = false) :
    create_object T reg name pt fresh =
      (Except.error (SGError.shogunError "could not cst"), fresh + 1) := by
  rw [create_object, create_hit_eq reg name pt fresh e h hf]
  simp [dynamic_pointer_cast, hc]

theorem create_object_of_hit (T : TypeInfo) (reg : Registry) (name : String)
    (pt : EPrimitiveType) (fresh : Nat) (e : CtorEntry)
    (h : lookupReg reg name pt = some e) (hf : e.ctorFails = false)
    (hc : T.sub e.concreteType = true) :
    create_object T reg name pt fresh =
      (Except.ok ⟨e.concreteType, fresh⟩, fresh + 1) := by
  rw [create_object, create_hit_eq reg name pt fresh e h hf]
  simp [dynamic_pointer_cast, hc]

theorem formatNotFound_ne_castMsg (t n c : String) :
    formatNotFound t n c ≠ "could not cst" := by
  intro h
  have h2 := congrArg String.data h
  simp only [formatNotFound, String.data_append] at h2
  have h3 := congrArg List.length h2
  simp [List.length_append] at h3
  omega

theorem closestTo_min (query best : String) (cs : List String) :
    (closestTo query best cs = best ∨ closestTo query best cs ∈ cs) ∧
    levDist query (closestTo query best cs) ≤ levDist query best ∧
    ∀ c ∈ cs, levDist query (closestTo query best cs) ≤ levDist query c := by
  induction cs generalizing best with
  | nil =>
    exact ⟨Or.inl rfl, Nat.le_refl _, fun c hc => absurd hc (List.not_mem_nil c)⟩
  | cons c cs ih =>
    by_cases h : levDist query c < levDist query best
    · have hcl : closestTo query best (c :: cs) = closestTo query c cs := by
        simp [closestTo, h]
      obtain ⟨m1, l1, a1⟩ := ih c
      rw [hcl]
      refine ⟨?_, ?_, ?_⟩
      · rcases m1 with h1 | h1
        · right
          rw [h1]
          exact List.mem_cons_self c cs
        · exact Or.inr (List.mem_cons_of_mem _ h1)
      · exact Nat.le_trans l1 (Nat.le_of_lt h)
      · intro x hx
        rcases List.mem_cons.mp hx with rfl | hx2
        · exact l1
        · exact a1 x hx2
    · have hcl : closestTo query best (c :: cs) = closestTo query best cs := by
        simp [closestTo, h]
      obtain ⟨m1, l1, a1⟩ := ih best
      rw [hcl]
      refine ⟨?_, ?_, ?_⟩
      · rcases m1 with h1 | h1
        · exact Or.inl h1
        · exact Or.inr (List.mem_cons_of_mem _ h1)
      · exact l1
      · intro x hx
        rcases List.mem_cons.mp hx with rfl | hx2
        · exact Nat.le_trans l1 (Nat.le_of_not_lt h)
        · exact a1 x hx2

theorem available_objects_ne_nil (reg : Registry) (h : reg ≠ []) :
    available_objects reg ≠ [] := by
  match reg, h with
  | (k, e) :: rest, _ =>
    have hmem : k.1 ∈ available_objects ((k, e) :: rest) := by
      simp [available_objects, List.mem_dedup]
    intro hnil
    rw [hnil] at hmem
    exact List.not_mem_nil _ hmem

theorem find_correct_name_cons (reg : Registry) (name c : String)
    (cs : List String) (h : available_objects reg = c :: cs) :
    find_correct_name reg name = closestTo name c cs := by
  rw [find_correct_name, h]

/-- Claim C1, counterexample to the claim as stated: with the empty
registry the candidate set is empty, yet the not-found error thrown by
create_object still embeds the suggestion clause, with the sentinel empty
suggestion substituted into the message. -/
theorem create_object_suggestion_unconditional_cex :
    available_objects ([] : Registry) = [] ∧
    (create_object machineNone [] "X" EPrimitiveType.PT_NOT_GENERIC 0).1 =
      Except.error
        (SGError.shogunError "Machine X does not exist. Did you mean  ?") ∧
    mentionsSuggestion "Machine X does not exist. Did you mean  ?" = true :=
  ⟨rfl, rfl, rfl⟩

/-- Claim C1 (amended): whenever the factory entry point returns an empty
handle, create_object fails with the not-found error embedding the label
of the expected type T, the requested name, and the suggestion computed
by find_correct_name; the suggestion clause is embedded unconditionally,
even when the candidate set is empty (the sentinel empty suggestion is
then embedded). -/
theorem create_object_name_not_found_error (T : TypeInfo) (reg : Registry)
    (name : String) (pt : EPrimitiveType) (fresh : Nat)
    (h : lookupReg reg name pt = none) :
    (create_object T reg name pt fresh).1 =
      Except.error (SGError.shogunError
        (formatNotFound (name_lookup T) name (find_correct_name reg name))) := by
  rw [create_object_of_miss T reg name pt fresh h]

/-- Claim C1, witness: the amended theorem at a concrete miss. -/
theorem create_object_name_not_found_error_witness :
    (create_object machineNone regRR "Ridge" EPrimitiveType.PT_FLOAT64 0).1 =
      Except.error (SGError.shogunError
        (formatNotFound (name_lookup machineNone) "Ridge"
          (find_correct_name regRR "Ridge"))) :=
  create_object_name_not_found_error machineNone regRR "Ridge"
    EPrimitiveType.PT_FLOAT64 0 rfl

/-- Claim C2, counterexample to the claim as stated: when the registered
class is not a subtype of the expected T, create_object throws, but the
message is the fixed string `could not cst`, which contains neither the
requested name (Foo) nor the expected type label (Machine). -/
theorem create_object_mismatch_plain_message_cex :
    (create_object machineNone
        [(("Foo", EPrimitiveType.PT_NOT_GENERIC), ⟨"Foo", false⟩)]
        "Foo" EPrimitiveType.PT_NOT_GENERIC 0).1 =
      Except.error (SGError.shogunError "could not cst") ∧
    occursIn "Foo".data "could not cst".data = false ∧
    occursIn "Machine".data "could not cst".data = false :=
  ⟨rfl, rfl, rfl⟩

/-- Claim C2 (amended): for every name whose registered class is not T or
a subtype of T, create_object fails by throwing an error, never silently
returning a null or default value; the error message, however, is the
fixed string `could not cst`, which identifies neither the requested name
nor the expected type label. -/
theorem create_object_mismatch_throws (T : TypeInfo) (reg : Registry)
    (name : String) (pt : EPrimitiveType) (fresh : Nat) (e : CtorEntry)
    (h : lookupReg reg name pt = some e) (hf : e.ctorFails = false)
    (hc : T.sub e.concreteType = false) :
    (create_object T reg name pt fresh).1 =
      Except.error (SGError.shogunError "could not cst") := by
  rw [create_object_of_mismatch T reg name pt fresh e h hf hc]

/-- Claim C2, witness: the amended theorem at a concrete mismatch. -/
theorem create_object_mismatch_throws_witness :
    (create_object machineNone
        [(("Foo", EPrimitiveType.PT_NOT_GENERIC), ⟨"Foo", false⟩)]
        "Foo" EPrimitiveType.PT_NOT_GENERIC 0).1 =
      Except.error (SGError.shogunError "could not cst") :=
  create_object_mismatch_throws machineNone
    [(("Foo", EPrimitiveType.PT_NOT_GENERIC), ⟨"Foo", false⟩)]
    "Foo" EPrimitiveType.PT_NOT_GENERIC 0 ⟨"Foo", false⟩ rfl rfl rfl

/-- Claim C3 (confirmed): for any name with no registration under the
requested type tag, create returns the empty handle as a normal value
(Except.ok none), never a thrown error; reporting the failure is left to
the caller. -/
theorem create_unregistered_returns_empty (reg : Registry) (name : String)
    (pt : EPrimitiveType) (fresh : Nat) (h : lookupReg reg name pt = none) :
    create reg name pt fresh = (Except.ok none, fresh) :=
  create_miss_eq reg name pt fresh h

/-- Claim C3, witness: a concrete unregistered name. -/
theorem create_unregistered_returns_empty_witness :
    create ([] : Registry) "X" EPrimitiveType.PT_BOOL 0 =
      (Except.ok none, 0) :=
  create_unregistered_returns_empty [] "X" EPrimitiveType.PT_BOOL 0 rfl

/-- Claim C4 (confirmed): for every registered (name, type_tag) pair
whose constructor succeeds, create returns a non-empty handle whose
concrete type is exactly the one recorded at registration. -/
theorem create_registered_returns_registered_type (reg : Registry)
    (name : String) (pt : EPrimitiveType) (fresh : Nat) (e : CtorEntry)
    (h : lookupReg reg name pt = some e) (hf : e.ctorFails = false) :
    create reg name pt fresh =
      (Except.ok (some ⟨e.concreteType, fresh⟩), fresh + 1) :=
  create_hit_eq reg name pt fresh e h hf

/-- Claim C4, witness: a concrete registered pair. -/
theorem create_registered_returns_registered_type_witness :
    create regRR "RidgeRegression" EPrimitiveType.PT_FLOAT64 0 =
      (Except.ok (some ⟨"RidgeRegression", 0⟩), 1) :=
  create_registered_returns_registered_type regRR "RidgeRegression"
    EPrimitiveType.PT_FLOAT64 0 ⟨"RidgeRegression", false⟩ rfl rfl

/-- Claim C5 (confirmed): for every query and non-empty registry,
find_correct_name returns a registered name whose Levenshtein distance to
the query is at most the distance of every other registered name. -/
theorem find_correct_name_min_distance (reg : Registry) (query : String)
    (h : reg ≠ []) :
    find_correct_name reg query ∈ available_objects reg ∧
    ∀ c ∈ available_objects reg,
      levDist query (find_correct_name reg query) ≤ levDist query c := by
  have hne := available_objects_ne_nil reg h
  rcases hao : available_objects reg with _ | ⟨c, cs⟩
  · exact absurd hao hne
  · have hfc := find_correct_name_cons reg query c cs hao
    rw [hfc]
    obtain ⟨hmem, hle, hall⟩ := closestTo_min query c cs
    constructor
    · rcases hmem with h1 | h1
      · rw [h1]
        exact List.mem_cons_self _ _
      · exact List.mem_cons_of_mem _ h1
    · intro x hx
      rcases List.mem_cons.mp hx with rfl | hx2
      · exact hle
      · exact hall x hx2

/-- Claim C5, witness: on the example registry, the suggestion for the
query Ridge is a registered name, and its distance to the query is at
most the distance of the other registered name. -/
theorem find_correct_name_min_distance_witness :
    find_correct_name regRR "Ridge" ∈ available_objects regRR ∧
    levDist "Ridge" (find_correct_name regRR "Ridge") ≤
      levDist "Ridge" "LeastSquares" :=
  ⟨(find_correct_name_min_distance regRR "Ridge" (by decide)).1,
   (find_correct_name_min_distance regRR "Ridge" (by decide)).2
     "LeastSquares" (by decide)⟩

/-- Claim C6 (confirmed): when the registered constructor for the pair
(name, type_tag) fails, the failure propagates out of create and out of
create_object as the constructionFailed error, which is distinct from
every shogunError (in particular from the not-found error). -/
theorem construction_failure_distinct (T : TypeInfo) (reg : Registry)
    (name : String) (pt : EPrimitiveType) (fresh : Nat) (e : CtorEntry)
    (h : lookupReg reg name pt = some e) (hf : e.ctorFails = true) :
    (create reg name pt fresh).1 =
      Except.error (SGError.constructionFailed name) ∧
    (create_object T reg name pt fresh).1 =
      Except.error (SGError.constructionFailed name) ∧
    ∀ msg, SGError.constructionFailed name ≠ SGError.shogunError msg := by
  refine ⟨?_, ?_, ?_⟩
  · rw [create_fail_eq reg name pt fresh e h hf]
  · rw [create_object_of_ctor_fail T reg name pt fresh e h hf]
  · intro msg heq
    exact SGError.noConfusion heq

/-- Claim C6, witness: a concrete registration whose constructor fails. -/
theorem construction_failure_distinct_witness :
    (create regBroken "Broken" EPrimitiveType.PT_NOT_GENERIC 0).1 =
      Except.error (SGError.constructionFailed "Broken") ∧
    (create_object machineAny regBroken "Broken"
        EPrimitiveType.PT_NOT_GENERIC 0).1 =
      Except.error (SGError.constructionFailed "Broken") :=
  ⟨(construction_failure_distinct machineAny regBroken "Broken"
      EPrimitiveType.PT_NOT_GENERIC 0 ⟨"Broken", true⟩ rfl rfl).1,
   (construction_failure_distinct machineAny regBroken "Broken"
      EPrimitiveType.PT_NOT_GENERIC 0 ⟨"Broken", true⟩ rfl rfl).2.1⟩

/-- Claim C7 (confirmed): find_correct_name is a total function of its
query (the embedding of an operation that never throws), and on an empty
candidate set it returns the empty-string sentinel. -/
theorem find_correct_name_empty_sentinel (reg : Registry) (query : String)
    (h : available_objects reg = []) :
    find_correct_name reg query = "" := by
  rw [find_correct_name, h]

/-- Claim C7, witness: the empty registry. -/
theorem find_correct_name_empty_sentinel_witness :
    find_correct_name ([] : Registry) "Ridge" = "" :=
  find_correct_name_empty_sentinel [] "Ridge" rfl

/-- Claim C8 (confirmed): available_objects contains no duplicate names,
and its members are exactly the names occurring in some registration,
with primitive-type-tag variants of the same name collapsed. -/
theorem available_objects_distinct_names (reg : Registry) :
    (available_objects reg).Nodup ∧
    ∀ n, n ∈ available_objects reg ↔ ∃ pt e, ((n, pt), e) ∈ reg := by
  refine ⟨List.nodup_dedup _, fun n => ?_⟩
  simp only [available_objects, List.mem_dedup, List.mem_map]
  constructor
  · rintro ⟨⟨⟨nm, pt⟩, e⟩, hmem, rfl⟩
    exact ⟨pt, e, hmem⟩
  · rintro ⟨pt, e, hmem⟩
    exact ⟨((n, pt), e), hmem, rfl⟩

/-- Claim C8, witness: the example registry. -/
theorem available_objects_distinct_names_witness :
    (available_objects regRR).Nodup ∧
    "RidgeRegression" ∈ available_objects regRR :=
  ⟨(available_objects_distinct_names regRR).1,
   ((available_objects_distinct_names regRR).2 "RidgeRegression").mpr
     ⟨EPrimitiveType.PT_FLOAT64, ⟨"RidgeRegression", false⟩, by decide⟩⟩

/-- Claim C9 (confirmed): two successive calls to create with the same
arguments, threading the allocation state, construct two handles with
distinct allocation identities — never the same instance. -/
theorem create_twice_distinct_instances (reg : Registry) (name : String)
    (pt : EPrimitiveType) (fresh : Nat) (e : CtorEntry)
    (h : lookupReg reg name pt = some e) (hf : e.ctorFails = false) :
    (create reg name pt fresh).1 = Except.ok (some ⟨e.concreteType, fresh⟩) ∧
    (create reg name pt (create reg name pt fresh).2).1 =
      Except.ok (some ⟨e.concreteType, fresh + 1⟩) ∧
    (⟨e.concreteType, fresh⟩ : SGObject) ≠ ⟨e.concreteType, fresh + 1⟩ := by
  have h1 := create_hit_eq reg name pt fresh e h hf
  refine ⟨?_, ?_, ?_⟩
  · rw [h1]
  · rw [h1]
    show (create reg name pt (fresh + 1)).1 = _
    rw [create_hit_eq reg name pt (fresh + 1) e h hf]
  · intro heq
    have h2 := congrArg SGObject.instanceId heq
    simp at h2

/-- Claim C9, witness: two successive creations on the example
registry. -/
theorem create_twice_distinct_instances_witness :
    (create regRR "RidgeRegression" EPrimitiveType.PT_FLOAT64 0).1 =
      Except.ok (some ⟨"RidgeRegression", 0⟩) ∧
    (create regRR "RidgeRegression" EPrimitiveType.PT_FLOAT64
        (create regRR "RidgeRegression" EPrimitiveType.PT_FLOAT64 0).2).1 =
      Except.ok (some ⟨"RidgeRegression", 1⟩) ∧
    (⟨"RidgeRegression", 0⟩ : SGObject) ≠ ⟨"RidgeRegression", 1⟩ :=
  create_twice_distinct_instances regRR "RidgeRegression"
    EPrimitiveType.PT_FLOAT64 0 ⟨"RidgeRegression", false⟩ rfl rfl

/-- Claim C10 (confirmed): in create_object the existence check precedes
the downcast: when the lookup misses, the call fails with the not-found
error and the cast is never reached; the cast-failure error can only
arise when the pair (name, pt) is registered and an object was actually
constructed; and every normal return is a (non-null) object that passed
the subtype check for T and is the very object constructed by create
(shared ownership of the constructed instance). -/
theorem create_object_check_order_and_success (T : TypeInfo)
    (reg : Registry) (name : String) (pt : EPrimitiveType) (fresh : Nat) :
    (lookupReg reg name pt = none →
      (create_object T reg name pt fresh).1 =
        Except.error (SGError.shogunError
          (formatNotFound (name_lookup T) name (find_correct_name reg name)))) ∧
    ((create_object T reg name pt fresh).1 =
        Except.error (SGError.shogunError "could not cst") →
      ∃ e, lookupReg reg name pt = some e ∧ e.ctorFails = false ∧
        T.sub e.concreteType = false) ∧
    (∀ obj, (create_object T reg name pt fresh).1 = Except.ok obj →
      ∃ e, lookupReg reg name pt = some e ∧ e.ctorFails = false ∧
        obj = ⟨e.concreteType, fresh⟩ ∧ T.sub obj.concreteType = true) := by
  rcases hl : lookupReg reg name pt with _ | e
  · have hmiss1 : (create_object T reg name pt fresh).1 =
        Except.error (SGError.shogunError
          (formatNotFound (name_lookup T) name (find_correct_name reg name))) := by
      rw [create_object_of_miss T reg name pt fresh hl]
    refine ⟨fun _ => hmiss1, fun habs => ?_, fun obj habs => ?_⟩
    · rw [hmiss1] at habs
      simp only [Except.error.injEq, SGError.shogunError.injEq] at habs
      exact absurd habs (formatNotFound_ne_castMsg _ _ _)
    · rw [hmiss1] at habs
      exact Except.noConfusion habs
  · cases hf : e.ctorFails with
    | true =>
      have hfail1 : (create_object T reg name pt fresh).1 =
          Except.error (SGError.constructionFailed name) := by
        rw [create_object_of_ctor_fail T reg name pt fresh e hl hf]
      refine ⟨fun hnone => Option.noConfusion hnone, fun habs => ?_,
        fun obj habs => ?_⟩
      · rw [hfail1] at habs
        simp only [Except.error.injEq] at habs
        exact SGError.noConfusion habs
      · rw [hfail1] at habs
        exact Except.noConfusion habs
    | false =>
      cases hc : T.sub e.concreteType with
      | false =>
        have hmm1 : (create_object T reg name pt fresh).1 =
            Except.error (SGError.shogunError "could not cst") := by
          rw [create_object_of_mismatch T reg name pt fresh e hl hf hc]
        refine ⟨fun hnone => Option.noConfusion hnone,
          fun _ => ⟨e, rfl, hf, hc⟩, fun obj habs => ?_⟩
        rw [hmm1] at habs
        exact Except.noConfusion habs
      | true =>
        have hok1 : (create_object T reg name pt fresh).1 =
            Except.ok ⟨e.concreteType, fresh⟩ := by
          rw [create_object_of_hit T reg name pt fresh e hl hf hc]
        refine ⟨fun hnone => Option.noConfusion hnone, fun habs => ?_,
          fun obj habs => ?_⟩
        · rw [hok1] at habs
          exact Except.noConfusion habs
        · rw [hok1] at habs
          simp only [Except.ok.injEq] at habs
          refine ⟨e, rfl, hf, habs.symm, ?_⟩
          rw [← habs]
          exact hc

/-- Claim C10, witness: the not-found branch of the theorem at a concrete
miss on the example registry. -/
theorem create_object_check_order_and_success_witness :
    (create_object machineAny regRR "Ridge" EPrimitiveType.PT_FLOAT64 0).1 =
      Except.error (SGError.shogunError
        (formatNotFound (name_lookup machineAny) "Ridge"
          (find_correct_name regRR "Ridge"))) :=
  (create_object_check_order_and_success machineAny regRR "Ridge"
    EPrimitiveType.PT_FLOAT64 0).1 rfl

end Shogun
